import Mathlib

/-!
Verification of the HTTP request wrapper of `part4_error_handling.py`:
`safe_api_request` (lines 30-54), `safe_api_request_with_retry`
(lines 173-186), and the flat required-field check of
`validate_json_response` (line 155).

The network boundary is modelled by a `Transport` value describing what the
underlying `requests.get` call (together with body parsing) does on one
invocation: a response arrives bearing a status code and the result of
parsing its body as JSON, or the call raises one of the exception kinds the
wrapper catches.  JSON values are modelled by a small inductive type; the
parse result of a response body is carried as `Except String Json`, where
the error string is the text of the `JSONDecodeError`.  In the version of
the `requests` library this file targets (2.27 and later, the version the
source itself relies on when it names `requests.exceptions.JSONDecodeError`
at line 165), `JSONDecodeError` is a subclass of `RequestException`, so a
parse failure inside `safe_api_request` is caught by the final
`except RequestException` branch.
-/

namespace ApiBasics

/-- JSON values, as produced by `response.json()`. -/
inductive Json where
  | null : Json
  | bool : Bool → Json
  | num : Int → Json
  | str : String → Json
  | arr : List Json → Json
  | obj : List (String × Json) → Json

/-- The outcome dictionary returned by the wrapper: a `success` flag plus an
optional payload (the `data` key) and an optional error message (the
`error` key).  The source only ever builds dictionaries carrying one of the
two optional keys; the embedding keeps both slots so that the
exactly-one-variant invariant is a provable property rather than a
modelling assumption. -/
structure Outcome where
  success : Bool
  data : Option Json
  error : Option String

/-- One possible behaviour of the transport on a single call: a response
with its status code and parsed body, or a raised `ConnectionError`,
`Timeout`, or other `RequestException` (whose `str(e)` is the carried
detail string). -/
inductive Transport where
  | response : Nat → Except String Json → Transport
  | connectionError : Transport
  | timeoutExc : Transport
  | otherException : String → Transport

/-- `safe_api_request(url, timeout=5)`, lines 30-54 of
`part4_error_handling.py`.  The `url` argument feeds only the log line and
the network, so the embedding passes the behaviour of the network call
directly.  Mirroring the source: `raise_for_status()` raises `HTTPError`
exactly when the status code is in 4xx/5xx, handled with message
`"HTTP Error: <status_code>"`; otherwise `response.json()` runs, and a
parse failure (a `JSONDecodeError`, subclass of `RequestException`) is
handled by the final branch with message `"Request failed: <str(e)>"`. -/
def safe_api_request (t : Transport) (timeout : Nat) : Outcome :=
  match t with
  | Transport.response status body =>
      if 400 ≤ status ∧ status < 600 then
        ⟨false, none, some ("HTTP Error: " ++ toString status)⟩
      else
        match body with
        | Except.ok parsed => ⟨true, some parsed, none⟩
        | Except.error details => ⟨false, none, some ("Request failed: " ++ details)⟩
  | Transport.connectionError =>
      ⟨false, none, some "Connection failed. Check your internet."⟩
  | Transport.timeoutExc =>
      ⟨false, none, some ("Request timed out after " ++ toString timeout ++ " seconds.")⟩
  | Transport.otherException details =>
      ⟨false, none, some ("Request failed: " ++ details)⟩

/-- One observable event of the retry loop: an invocation of
`safe_api_request` on a given attempt number, or a `time.sleep(1)` pause. -/
inductive Event where
  | call : Nat → Event
  | sleepOneSecond : Event

/-- The `for attempt in range(1, retries + 1)` loop of
`safe_api_request_with_retry`, lines 176-184: `attempt` is the current
attempt number and the last argument the number of iterations remaining.
Each iteration calls `safe_api_request`, returns immediately on success,
and otherwise sleeps one second before continuing; when the iterations are
exhausted the fixed failure dictionary of line 186 is returned.  Besides
the outcome, the trace of calls and sleeps is returned so that invocation
counts and pauses are provable. -/
def retryGo (attempts : Nat → Transport) (timeout : Nat) (attempt : Nat) :
    Nat → Outcome × List Event
  | 0 => (⟨false, none, some "Request failed after multiple retries"⟩, [])
  | Nat.succ r =>
      let result := safe_api_request (attempts attempt) timeout
      if result.success then
        (result, [Event.call attempt])
      else
        let rest := retryGo attempts timeout (attempt + 1) r
        (rest.1, Event.call attempt :: Event.sleepOneSecond :: rest.2)

/-- `safe_api_request_with_retry(url, timeout=5, retries=3)`, lines
173-186.  The transport behaviour seen by the k-th attempt is `attempts k`;
attempts are numbered from 1 as in the source loop. -/
def safe_api_request_with_retry (attempts : Nat → Transport)
    (timeout retries : Nat) : Outcome × List Event :=
  retryGo attempts timeout 1 retries

/-- Whether an event is an invocation of `safe_api_request`. -/
def Event.isCall : Event → Bool
  | Event.call _ => true
  | Event.sleepOneSecond => false

/-- Whether an event is a `time.sleep(1)` pause. -/
def Event.isSleep : Event → Bool
  | Event.call _ => false
  | Event.sleepOneSecond => true

/-- Number of `safe_api_request` invocations in a trace. -/
def callCount (evs : List Event) : Nat := (evs.filter Event.isCall).length

/-- Number of one-second pauses in a trace. -/
def sleepCount (evs : List Event) : Nat := (evs.filter Event.isSleep).length

/-- Key membership `f in data` on a parsed JSON value (a Python dict when
the value is an object; non-objects have no keys). -/
def jsonHasKey (data : Json) (f : String) : Bool :=
  match data with
  | Json.obj fields => fields.any (fun kv => kv.1 == f)
  | _ => false

/-- The flat required-field check of `validate_json_response`, line 155:
`missing = [f for f in required_fields if f not in data]`. -/
def missingFields (data : Json) (required : List String) : List String :=
  required.filter (fun f => ! jsonHasKey data f)

/-- An outcome is well formed when the success flag determines which of the
payload and the error message is present. -/
def wellFormedOutcome (o : Outcome) : Prop :=
  (o.success = true → o.data.isSome = true ∧ o.error = none) ∧
  (o.success = false → o.error.isSome = true ∧ o.data = none)

/-- Exactly one variant is populated: the payload is present iff the
success flag is true, the error message iff it is false, and never both. -/
def exactlyOneVariant (o : Outcome) : Prop :=
  (o.data.isSome = true ↔ o.success = true) ∧
  (o.error.isSome = true ↔ o.success = false) ∧
  ¬ (o.data.isSome = true ∧ o.error.isSome = true)

/-- The fixed dictionary returned at line 186 when every attempt failed. -/
def retryExhaustedOutcome : Outcome :=
  ⟨false, none, some "Request failed after multiple retries"⟩

/-- Demonstration attempt schedule: the second attempt yields a parsed 200
response, every other attempt a connection failure. -/
def attemptsDemo : Nat → Transport := fun k =>
  if k == 2 then Transport.response 200 (Except.ok (Json.num 1))
  else Transport.connectionError

/-- Every outcome of `safe_api_request` is either a success carrying a
payload and no error message, or a failure carrying an error message and no
payload. -/
theorem safe_api_request_shape (t : Transport) (timeout : Nat) :
    ((safe_api_request t timeout).success = true ∧
      (safe_api_request t timeout).data.isSome = true ∧
      (safe_api_request t timeout).error = none) ∨
    ((safe_api_request t timeout).success = false ∧
      (safe_api_request t timeout).data = none ∧
      (safe_api_request t timeout).error.isSome = true) := by
  cases t with
  | response status body =>
      by_cases h : 400 ≤ status ∧ status < 600
      · right; simp [safe_api_request, h]
      · cases body with
        | ok parsed => left; simp [safe_api_request, h]
        | error details => right; simp [safe_api_request, h]
  | connectionError => right; simp [safe_api_request]
  | timeoutExc => right; simp [safe_api_request]
  | otherException details => right; simp [safe_api_request]

/-- Unfolding the retry loop at zero remaining iterations. -/
theorem retryGo_zero (attempts : Nat → Transport) (timeout a : Nat) :
    retryGo attempts timeout a 0 = (retryExhaustedOutcome, []) := rfl

/-- Unfolding the retry loop when the current attempt succeeds. -/
theorem retryGo_succ_pos (attempts : Nat → Transport) (timeout a r : Nat)
    (h : (safe_api_request (attempts a) timeout).success = true) :
    retryGo attempts timeout a (r + 1)
      = (safe_api_request (attempts a) timeout, [Event.call a]) := by
  simp [retryGo, h]

/-- Unfolding the retry loop when the current attempt fails: the call is
followed by a one-second pause and the loop continues. -/
theorem retryGo_succ_neg (attempts : Nat → Transport) (timeout a r : Nat)
    (h : (safe_api_request (attempts a) timeout).success = false) :
    retryGo attempts timeout a (r + 1)
      = ((retryGo attempts timeout (a + 1) r).1,
          Event.call a :: Event.sleepOneSecond ::
            (retryGo attempts timeout (a + 1) r).2) := by
  simp [retryGo, h]

/-- A call event at the head of a trace adds one to the call count. -/
theorem callCount_cons_call (a : Nat) (evs : List Event) :
    callCount (Event.call a :: evs) = callCount evs + 1 := by
  simp [callCount, List.filter_cons, Event.isCall]

/-- A pause at the head of a trace leaves the call count unchanged. -/
theorem callCount_cons_sleep (evs : List Event) :
    callCount (Event.sleepOneSecond :: evs) = callCount evs := by
  simp [callCount, List.filter_cons, Event.isCall]

/-- The retry loop performs at most as many calls as it has iterations. -/
theorem retryGo_callCount_le (attempts : Nat → Transport) (timeout : Nat) :
    ∀ r a, callCount (retryGo attempts timeout a r).2 ≤ r := by
  intro r
  induction r with
  | zero => intro a; simp [retryGo_zero, callCount]
  | succ r ih =>
      intro a
      cases hs : (safe_api_request (attempts a) timeout).success with
      | true =>
          rw [retryGo_succ_pos attempts timeout a r hs]
          simp [callCount, Event.isCall]
      | false =>
          rw [retryGo_succ_neg attempts timeout a r hs]
          rw [callCount_cons_call, callCount_cons_sleep]
          exact Nat.succ_le_succ (ih (a + 1))

/-- The outcome of the retry loop is the fixed exhaustion outcome or the
outcome of one of the underlying calls. -/
theorem retryGo_outcome_cases (attempts : Nat → Transport) (timeout : Nat) :
    ∀ r a, (retryGo attempts timeout a r).1 = retryExhaustedOutcome ∨
      ∃ k, (retryGo attempts timeout a r).1
            = safe_api_request (attempts k) timeout := by
  intro r
  induction r with
  | zero => intro a; left; rfl
  | succ r ih =>
      intro a
      cases hs : (safe_api_request (attempts a) timeout).success with
      | true =>
          right
          exact ⟨a, by rw [retryGo_succ_pos attempts timeout a r hs]⟩
      | false =>
          rw [retryGo_succ_neg attempts timeout a r hs]
          exact ih (a + 1)

/-- When every attempt in range fails, the retry loop returns the fixed
exhaustion outcome. -/
theorem retryGo_all_fail (attempts : Nat → Transport) (timeout : Nat) :
    ∀ r a, (∀ j, a ≤ j → j < a + r →
        (safe_api_request (attempts j) timeout).success = false) →
      (retryGo attempts timeout a r).1 = retryExhaustedOutcome := by
  intro r
  induction r with
  | zero => intro a _; rfl
  | succ r ih =>
      intro a hall
      have hfa : (safe_api_request (attempts a) timeout).success = false :=
        hall a (Nat.le_refl a) (by omega)
      rw [retryGo_succ_neg attempts timeout a r hfa]
      exact ih (a + 1) (fun j hj1 hj2 => hall j (by omega) (by omega))

/-- If the attempts before `k` fail and attempt `k` succeeds within the
iteration budget, the retry loop returns attempt k's outcome, makes exactly
the calls up to `k`, and no call event past `k` appears in the trace. -/
theorem retryGo_first_success (attempts : Nat → Transport) (timeout : Nat) :
    ∀ r a k, a ≤ k → k < a + r →
      (∀ j, a ≤ j → j < k →
        (safe_api_request (attempts j) timeout).success = false) →
      (safe_api_request (attempts k) timeout).success = true →
      (retryGo attempts timeout a r).1 = safe_api_request (attempts k) timeout ∧
      callCount (retryGo attempts timeout a r).2 = k - a + 1 ∧
      ∀ j, k < j → Event.call j ∉ (retryGo attempts timeout a r).2 := by
  intro r
  induction r with
  | zero => intro a k hak hkr _ _; exact absurd hkr (by omega)
  | succ r ih =>
      intro a k hak hkr hfail hsucc
      rcases Nat.eq_or_lt_of_le hak with heq | hlt
      · subst heq
        rw [retryGo_succ_pos attempts timeout a r hsucc]
        refine ⟨rfl, ?_, ?_⟩
        · have h0 : callCount ([] : List Event) = 0 := rfl
          rw [callCount_cons_call, h0]
          omega
        · intro j hj
          simp only [List.mem_singleton, Event.call.injEq]
          omega
      · have hfa : (safe_api_request (attempts a) timeout).success = false :=
          hfail a (Nat.le_refl a) hlt
        rw [retryGo_succ_neg attempts timeout a r hfa]
        have ihr := ih (a + 1) k hlt (by omega)
          (fun j hj1 hj2 => hfail j (by omega) hj2) hsucc
        refine ⟨ihr.1, ?_, ?_⟩
        · rw [callCount_cons_call, callCount_cons_sleep, ihr.2.1]
          omega
        · intro j hj
          have hnr := ihr.2.2 j hj
          simp only [List.mem_cons, not_or]
          refine ⟨?_, ?_, hnr⟩
          · simp only [ne_eq, Event.call.injEq]
            omega
          · simp

/-- Claim C1, counterexample: a 200 response whose body fails to parse
produces exactly the same outcome as an `otherException`
(OtherRequestFailure) with the same detail text, and its message is of the
generic `"Request failed: <details>"` form — so the malformed-response case
is not a distinct category with a message distinct from the
OtherRequestFailure kind. -/
theorem malformed_response_conflated :
    safe_api_request (Transport.response 200 (Except.error "Expecting value")) 5
      = safe_api_request (Transport.otherException "Expecting value") 5 ∧
    (safe_api_request
        (Transport.response 200 (Except.error "Expecting value")) 5).error
      = some "Request failed: Expecting value" :=
  ⟨rfl, rfl⟩

/-- Claim C1, amended: for every response whose body fails to parse as
JSON (and whose status is not in the 4xx/5xx range), `safe_api_request`
surfaces the parse error as a Failure outcome rather than an unhandled
exception, but through the generic `RequestException` branch with message
`"Request failed: <details>"` — identical to the outcome of an
OtherRequestFailure with the same detail, not a distinct
malformed-response category. -/
theorem safe_api_request_parse_failure (status : Nat) (details : String)
    (timeout : Nat) (h : ¬ (400 ≤ status ∧ status < 600)) :
    safe_api_request (Transport.response status (Except.error details)) timeout
      = ⟨false, none, some ("Request failed: " ++ details)⟩ ∧
    safe_api_request (Transport.response status (Except.error details)) timeout
      = safe_api_request (Transport.otherException details) timeout := by
  constructor <;> simp [safe_api_request, h]

/-- Witness for `safe_api_request_parse_failure` at status 200 and detail
string "bad body". -/
theorem safe_api_request_parse_failure_witness :
    ¬ (400 ≤ 200 ∧ 200 < 600) ∧
    safe_api_request (Transport.response 200 (Except.error "bad body")) 5
      = ⟨false, none, some "Request failed: bad body"⟩ :=
  ⟨by decide,
    ((safe_api_request_parse_failure 200 "bad body" 5 (by decide)).1).trans rfl⟩

/-- Claim C2: for every transport behaviour and every timeout,
`safe_api_request` returns a well-formed outcome — a success flag together
with a payload exactly when the flag is true and an error message exactly
when it is false.  The embedded function is total, so every call path
terminates in such an outcome and nothing escapes the boundary. -/
theorem safe_api_request_total_wellFormed (t : Transport) (timeout : Nat) :
    wellFormedOutcome (safe_api_request t timeout) := by
  unfold wellFormedOutcome
  rcases safe_api_request_shape t timeout with ⟨h1, h2, h3⟩ | ⟨h1, h2, h3⟩ <;>
    refine ⟨fun hs => ?_, fun hs => ?_⟩ <;> simp_all

/-- Claim C3: a response with a 2xx status and a body that parses yields a
Success outcome whose payload is exactly the parsed body. -/
theorem safe_api_request_2xx_parsed (status : Nat) (parsed : Json)
    (timeout : Nat) (h : 200 ≤ status ∧ status < 300) :
    safe_api_request (Transport.response status (Except.ok parsed)) timeout
      = ⟨true, some parsed, none⟩ := by
  have hn : ¬ (400 ≤ status ∧ status < 600) := by omega
  simp [safe_api_request, hn]

/-- Witness for `safe_api_request_2xx_parsed` at status 200 and payload
`Json.num 1`. -/
theorem safe_api_request_2xx_parsed_witness :
    (200 ≤ 200 ∧ 200 < 300) ∧
    safe_api_request (Transport.response 200 (Except.ok (Json.num 1))) 5
      = ⟨true, some (Json.num 1), none⟩ :=
  ⟨by decide, safe_api_request_2xx_parsed 200 (Json.num 1) 5 (by decide)⟩

/-- Claim C4, evaluation at the failing input: with three attempts that
all fail, the loop performs three one-second pauses — one after every
failed attempt, including the last, just before the exhaustion outcome is
returned — where the claim states exactly two pauses, only between
consecutive attempts. -/
theorem retry_sleeps_after_last_attempt :
    sleepCount
        (safe_api_request_with_retry (fun _ => Transport.connectionError) 5 3).2
      = 3 ∧
    callCount
        (safe_api_request_with_retry (fun _ => Transport.connectionError) 5 3).2
      = 3 :=
  ⟨rfl, rfl⟩

/-- Claim C5: the retry wrapper invokes `safe_api_request` at most
`retries` times; and whenever the attempts before `k` all fail and attempt
`k` succeeds, it returns attempt k's outcome, makes exactly `k`
invocations, and no attempt past `k` ever occurs. -/
theorem retry_at_most_and_first_success (attempts : Nat → Transport)
    (timeout retries : Nat) :
    callCount (safe_api_request_with_retry attempts timeout retries).2
      ≤ retries ∧
    ∀ k, 1 ≤ k → k ≤ retries →
      (∀ j, 1 ≤ j → j < k →
        (safe_api_request (attempts j) timeout).success = false) →
      (safe_api_request (attempts k) timeout).success = true →
      (safe_api_request_with_retry attempts timeout retries).1
          = safe_api_request (attempts k) timeout ∧
      callCount (safe_api_request_with_retry attempts timeout retries).2 = k ∧
      ∀ j, k < j →
        Event.call j ∉ (safe_api_request_with_retry attempts timeout retries).2 := by
  constructor
  · exact retryGo_callCount_le attempts timeout retries 1
  · intro k hk1 hk2 hfail hsucc
    have h := retryGo_first_success attempts timeout retries 1 k hk1 (by omega)
      hfail hsucc
    refine ⟨h.1, ?_, h.2.2⟩
    show callCount (retryGo attempts timeout 1 retries).2 = k
    rw [h.2.1]
    omega

/-- Witness for `retry_at_most_and_first_success` on the demonstration
schedule where attempt 2 is the first success within 3 allowed attempts. -/
theorem retry_at_most_and_first_success_witness :
    (safe_api_request_with_retry attemptsDemo 5 3).1
      = ⟨true, some (Json.num 1), none⟩ ∧
    callCount (safe_api_request_with_retry attemptsDemo 5 3).2 = 2 := by
  have h := (retry_at_most_and_first_success attemptsDemo 5 3).2 2
    (by decide) (by decide)
    (fun j hj1 hj2 => by
      have hj : j = 1 := by omega
      subst hj
      rfl)
    rfl
  exact ⟨h.1.trans rfl, h.2.1⟩

/-- Claim C6: when at least one attempt is allowed and every attempt
fails, the retry wrapper returns a Failure with exactly the fixed message
"Request failed after multiple retries", whatever the individual failure
kinds were. -/
theorem retry_exhaustion_message (attempts : Nat → Transport)
    (timeout retries : Nat) (h1 : 1 ≤ retries)
    (hall : ∀ k, 1 ≤ k → k ≤ retries →
      (safe_api_request (attempts k) timeout).success = false) :
    (safe_api_request_with_retry attempts timeout retries).1
      = ⟨false, none, some "Request failed after multiple retries"⟩ :=
  retryGo_all_fail attempts timeout retries 1
    (fun j hj1 hj2 => hall j hj1 (by omega))

/-- Witness for `retry_exhaustion_message`: three attempts, each a
connection failure. -/
theorem retry_exhaustion_message_witness :
    1 ≤ 3 ∧
    (safe_api_request_with_retry (fun _ => Transport.connectionError) 5 3).1
      = ⟨false, none, some "Request failed after multiple retries"⟩ :=
  ⟨by decide,
    retry_exhaustion_message (fun _ => Transport.connectionError) 5 3
      (by decide) (fun k _ _ => rfl)⟩

/-- Claim C7: every outcome returned by `safe_api_request` and by
`safe_api_request_with_retry` populates exactly one variant — the payload
is present iff the success flag is true, the error message iff it is
false, never both. -/
theorem outcome_exactly_one_variant :
    (∀ t timeout, exactlyOneVariant (safe_api_request t timeout)) ∧
    (∀ attempts timeout retries,
      exactlyOneVariant
        (safe_api_request_with_retry attempts timeout retries).1) := by
  have hsafe : ∀ t timeout, exactlyOneVariant (safe_api_request t timeout) := by
    intro t timeout
    unfold exactlyOneVariant
    rcases safe_api_request_shape t timeout with ⟨h1, h2, h3⟩ | ⟨h1, h2, h3⟩ <;>
      simp_all
  refine ⟨hsafe, ?_⟩
  intro attempts timeout retries
  rcases retryGo_outcome_cases attempts timeout retries 1 with h | ⟨k, h⟩
  · unfold safe_api_request_with_retry
    rw [h]
    unfold exactlyOneVariant retryExhaustedOutcome
    simp
  · unfold safe_api_request_with_retry
    rw [h]
    exact hsafe (attempts k) timeout

/-- Claim C9: the flat required-field check returns exactly the required
fields that are not keys of the payload; in particular it returns
`["c"]` on payload `{"a": 1, "b": 2}` with list `["a", "b", "c"]`, and
`[]` on payload `{"a": 1}` with list `["a"]`. -/
theorem missingFields_spec :
    (∀ data required f,
      f ∈ missingFields data required ↔
        f ∈ required ∧ jsonHasKey data f = false) ∧
    missingFields (Json.obj [("a", Json.num 1), ("b", Json.num 2)])
        ["a", "b", "c"] = ["c"] ∧
    missingFields (Json.obj [("a", Json.num 1)]) ["a"] = [] := by
  refine ⟨?_, rfl, rfl⟩
  intro data required f
  simp [missingFields, List.mem_filter]

/-- Claim C10: with `retries = 0` the loop body never runs: the wrapper
returns the exhaustion Failure with an empty trace, so `safe_api_request`
is never invoked. -/
theorem retry_zero_retries (attempts : Nat → Transport) (timeout : Nat) :
    safe_api_request_with_retry attempts timeout 0
      = (⟨false, none, some "Request failed after multiple retries"⟩,
          ([] : List Event)) ∧
    callCount (safe_api_request_with_retry attempts timeout 0).2 = 0 :=
  ⟨rfl, rfl⟩

/-- Claim C8: a call that exceeds its timeout yields the Timeout failure,
whose message contains the configured timeout value: it is exactly
`"Request timed out after <timeout> seconds."`. -/
theorem safe_api_request_timeout_message (timeout : Nat) (h : 0 < timeout) :
    safe_api_request Transport.timeoutExc timeout
      = ⟨false, none,
          some ("Request timed out after " ++ toString timeout ++ " seconds.")⟩ :=
  rfl

/-- Witness for `safe_api_request_timeout_message` at timeout 5. -/
theorem safe_api_request_timeout_message_witness :
    0 < 5 ∧
    safe_api_request Transport.timeoutExc 5
      = ⟨false, none, some "Request timed out after 5 seconds."⟩ :=
  ⟨by decide, (safe_api_request_timeout_message 5 (by decide)).trans rfl⟩

end ApiBasics
